import Mathlib

/-!
Shallow embedding of the ERPNext-ARB-APIs repository (authentication / OTP
flows, cart built on the "Quick Order" doctype, and quotation status mapping),
with theorems checking the natural-language specification against the code.

Python handlers are embedded as Lean functions over an explicit state
(configuration, user table, shared cache); `frappe.throw` and other Python
exceptions are embedded with `Except PyExc`; handlers that wrap their body in
`try/except` are embedded as a total wrapper around the fallible body.
-/

namespace ARB

/-- Exceptions that the embedded code can raise.  `validationError` embeds
`frappe.ValidationError` (raised by `frappe.throw`), `permissionError` embeds
`frappe.PermissionError`, `typeError` embeds Python's built-in `TypeError`
(raised e.g. when a call passes a keyword argument the callee does not
accept), and `otherError` covers the remaining `Exception` subclasses. -/
inductive PyExc where
  | validationError (msg : String)
  | permissionError (msg : String)
  | typeError (msg : String)
  | otherError (msg : String)
deriving DecidableEq, Repr

/-- `str(e)` on an embedded exception. -/
def PyExc.str : PyExc → String
  | .validationError m => m
  | .permissionError m => m
  | .typeError m => m
  | .otherError m => m

/-- Python truthiness of an optional string field (`None` and `""` are falsy). -/
def pyTruthyStr : Option String → Bool
  | none => false
  | some s => !(s = "")

/-- Python `c in s` for a single-character needle (e.g. `"@" in username`). -/
def pyInStr (c : Char) (s : String) : Bool := s.data.contains c

/-- Python `s.isdigit()`. -/
def pyIsDigit (s : String) : Bool := s.data.all Char.isDigit

/-! ## The framework cache (`frappe.cache()`)

One shared string-keyed store.  The values this repository ever stores are
OTP entries (dicts) and the boolean blacklist flags, so the value type is the
sum of the two.  TTL expiry is supplied by the platform, not by this code:
the model keeps the `expires_in_sec` argument at each call site for fidelity
but expiry itself is represented by starting from a cache without the entry. -/

/-- The `extra` dict stored inside an OTP cache entry. -/
structure OtpExtra where
  full_name : Option String := none
  user_email : Option String := none
  phone : Option String := none
  name : Option String := none
deriving DecidableEq, Repr

/-- An OTP cache entry as built by `send_otp` / mutated by the verify handlers. -/
structure OtpData where
  otp_hash : String
  attempts : Nat := 0
  resend_attempts : Nat := 0
  verified : Bool := false
  created_at : Int := 0
  extra : OtpExtra := {}
  reset_token : Option String := none
deriving DecidableEq, Repr

/-- A value stored in the framework cache. -/
inductive CacheVal where
  | otp (d : OtpData)
  | flag (b : Bool)
deriving DecidableEq, Repr

/-- Python truthiness of a cached value (`None` falsy, a non-empty dict and
`True` truthy). -/
def CacheVal.truthy : Option CacheVal → Bool
  | none => false
  | some (.otp _) => true
  | some (.flag b) => b

/-- The framework cache: key → stored value. -/
def Cache := String → Option CacheVal

/-- `frappe.cache().get_value(key)`. -/
def Cache.get_value (c : Cache) (key : String) : Option CacheVal := c key

/-- `frappe.cache().set_value(key, val, expires_in_sec=..)`; the TTL is kept
as an argument for call-site fidelity, the platform owns the expiry. -/
def Cache.set_value (c : Cache) (key : String) (v : CacheVal)
    (_expires_in_sec : Nat) : Cache :=
  fun k => if k = key then some v else c k

/-- `frappe.cache().delete_key(key)`. -/
def Cache.delete_key (c : Cache) (key : String) : Cache :=
  fun k => if k = key then none else c k

/-- The empty cache. -/
def Cache.empty : Cache := fun _ => none

/-! ## Site configuration (`utils/frappe_configs.py`)

`frappe.conf.get(key, default)` over the six ARB keys. -/

structure Conf where
  arb_jwt_secret : Option String := none
  arb_otp_expiry_minutes : Option Nat := none
  arb_jwt_algorithm : Option String := none
  arb_jwt_expiry_minutes : Option Nat := none
  arb_jwt_refresh_expiry_days : Option Nat := none
  arb_otp_resend_limit_per_hour : Option Nat := none
deriving DecidableEq, Repr

def get_jwt_secret (c : Conf) : String :=
  c.arb_jwt_secret.getD "your-secret-key-change-in-production"

def get_otp_expiry_minutes (c : Conf) : Nat :=
  c.arb_otp_expiry_minutes.getD 10

def get_jwt_algorithm (c : Conf) : String :=
  c.arb_jwt_algorithm.getD "HS256"

def get_jwt_expiry_minutes (c : Conf) : Nat :=
  c.arb_jwt_expiry_minutes.getD 60

def get_jwt_refresh_expiry_days (c : Conf) : Nat :=
  c.arb_jwt_refresh_expiry_days.getD 7

def get_otp_resend_limit_per_hour (c : Conf) : Nat :=
  c.arb_otp_resend_limit_per_hour.getD 5

/-! ## JWT model (`utils/authentication.py`)

A token is the signed blob `jwt.encode(payload, secret, algorithm)`: the
model keeps it as the triple it determines.  `jwt.decode` succeeds exactly
when secret and algorithm match and the `exp` claim has not passed
(`ExpiredSignatureError` / `InvalidTokenError` are suppressed to `None` by
`verify_jwt_token`).  Timestamps are integral seconds. -/

/-- The payload dict of a token issued by this repository; `type` is `none`
when the key is absent (access tokens) and `some "refresh"` on refresh
tokens. -/
structure JwtPayload where
  email : String
  iat : Int
  exp : Int
  type : Option String := none
deriving DecidableEq, Repr

/-- `jwt.encode(payload, secret, algorithm)`: an opaque signed blob
determined by its three inputs. -/
structure Jwt where
  payload : JwtPayload
  secret : String
  alg : String
deriving DecidableEq, Repr

/-- The wire string of a token, used only where the Python code splices the
token string into a cache key (`f"blacklist_refresh_{refresh_token}"`). -/
def Jwt.wire (t : Jwt) : String :=
  t.payload.email ++ "." ++ toString t.payload.iat ++ "." ++
    toString t.payload.exp ++ "." ++ (t.payload.type.getD "") ++ "." ++ t.alg

/-- `generate_jwt_token(user_email)`: access token with `email`, `iat`,
`exp = now + expiry_minutes`, signed with the configured secret/algorithm. -/
def generate_jwt_token (conf : Conf) (now : Int) (user_email : String) : Jwt :=
  { payload :=
      { email := user_email
        iat := now
        exp := now + 60 * (get_jwt_expiry_minutes conf : Int) }
    secret := get_jwt_secret conf
    alg := get_jwt_algorithm conf }

/-- `generate_refresh_token(user_email)`: refresh token with `email`,
`type: "refresh"`, `iat`, `exp = now + refresh_expiry_days`. -/
def generate_refresh_token (conf : Conf) (now : Int) (user_email : String) : Jwt :=
  { payload :=
      { email := user_email
        type := some "refresh"
        iat := now
        exp := now + 86400 * (get_jwt_refresh_expiry_days conf : Int) }
    secret := get_jwt_secret conf
    alg := get_jwt_algorithm conf }

/-- `verify_jwt_token(token)`: payload if the token verifies against the
configured secret and algorithm and is not expired, else `None`. -/
def verify_jwt_token (conf : Conf) (now : Int) (t : Jwt) : Option JwtPayload :=
  if t.secret = get_jwt_secret conf ∧ t.alg = get_jwt_algorithm conf ∧
      now < t.payload.exp then
    some t.payload
  else
    none

/-! ## OTP utilities (`utils/authentication.py`) -/

/-- `generate_otp(length=6)`.  The function imports `random` but every call
to it is commented out in the live code; the body clamps the length, then a
`for` loop assigns `otp = "123456789"[:length]` on every iteration.  The
`rng` argument stands for the `random` module's state and is (faithfully)
unused. -/
def generate_otp (_rng : Nat → Nat) (length : Int := 6) : String :=
  let length : Int := if length ≤ 0 ∨ length > 9 then 6 else length
  let numbers := "123456789"
  (List.range length.toNat).foldl (fun _otp _ => numbers.take length.toNat) ""

/-- `hash_otp(otp) = sha256(otp).hexdigest()`: modelled as an injective
tagging of the input, preserving the one property the code relies on
(deterministic, collision-free digests). -/
def hash_otp (otp : String) : String := "sha256:" ++ otp

/-- `blacklist_refresh_token(refresh_token)`: set the cache flag
`blacklist_refresh_<token>` for the refresh-expiry window. -/
def blacklist_refresh_token (refresh_token : Jwt) (c : Cache) : Cache :=
  c.set_value ("blacklist_refresh_" ++ refresh_token.wire) (.flag true)
    (7 * 24 * 60 * 60)

/-- `is_refresh_token_blacklisted(refresh_token)`.  (Defined in the source
and never called by any handler.) -/
def is_refresh_token_blacklisted (refresh_token : Jwt) (c : Cache) : Bool :=
  CacheVal.truthy (c.get_value ("blacklist_refresh_" ++ refresh_token.wire))

/-! ## Users and handler state -/

/-- A row of the framework's `User` doctype, with the fields this repository
reads.  `enabled` is the 0/1 int field; `disabled` is the attribute
`refresh_token` / `validate_token` read via `user.disabled`. -/
structure User where
  name : String
  email : String
  mobile_no : String
  first_name : String := ""
  last_name : String := ""
  full_name : String := ""
  user_image : Option String := none
  enabled : Nat := 1
  disabled : Bool := false
deriving DecidableEq, Repr

/-- The state an auth handler runs against: site config, the `User` table,
the shared cache, the clock, the `random` module state, and the next value
`frappe.generate_hash(length=32)` would produce. -/
structure St where
  conf : Conf := {}
  users : List User := []
  cache : Cache := Cache.empty
  now : Int := 0
  rng : Nat → Nat := fun _ => 0
  check_password : String → String → Bool := fun _ _ => false
  fresh_hash : String := ""

/-- `frappe.db.get_all("User", filters={"email": e}, limit=1)`: first match. -/
def find_user_by_email (users : List User) (e : String) : Option User :=
  users.find? (fun u => u.email = e)

/-- `frappe.db.get_all("User", filters={"mobile_no": p}, limit=1)`. -/
def find_user_by_mobile (users : List User) (p : String) : Option User :=
  users.find? (fun u => u.mobile_no = p)

/-- `frappe.db.exists("User", name)`. -/
def user_exists (users : List User) (name : String) : Bool :=
  users.any (fun u => u.name = name)

/-- `frappe.get_doc("User", name)` (raises `DoesNotExistError` when absent;
callers in this repository only reach it after an existence check). -/
def get_user_doc (users : List User) (name : String) : Option User :=
  users.find? (fun u => u.name = name)

/-- The `user` dict embedded in login-style responses. -/
structure UserInfo where
  email : String
  phone : String
  first_name : String
  last_name : String
  full_name : String
  user_image : Option String
deriving DecidableEq, Repr

def user_info (u : User) : UserInfo :=
  { email := u.email, phone := u.mobile_no, first_name := u.first_name
    last_name := u.last_name, full_name := u.full_name
    user_image := u.user_image }

/-! ## `auth.login` -/

structure LoginRequest where
  username : String
  password : String
deriving DecidableEq, Repr

structure LoginOk where
  access_token : Jwt
  refresh_token : Jwt
  user : UserInfo
deriving DecidableEq, Repr

structure LoginResp where
  status : String
  message : Option String := none
  access_token : Option Jwt := none
  refresh_token : Option Jwt := none
  token_type : Option String := none
  user : Option UserInfo := none
deriving DecidableEq, Repr

/-- Body of the `try` block of `login`. -/
def login_inner (s : St) (data : LoginRequest) : Except PyExc LoginOk :=
  let user_list :=
    if pyInStr '@' data.username then find_user_by_email s.users data.username
    else find_user_by_mobile s.users data.username
  match user_list.map (fun u => u.name) with
  | none => .error (.validationError "Invalid credentials, user not found")
  | some user_email =>
    match get_user_doc s.users user_email with
    | none => .error (.otherError "User not found")
    | some user =>
      if user.enabled ≠ 1 then
        .error (.validationError "User account is disabled")
      else if ¬ s.check_password user_email data.password then
        .error (.validationError "Invalid credentials, incorrect password")
      else
        .ok { access_token := generate_jwt_token s.conf s.now user_email
              refresh_token := generate_refresh_token s.conf s.now user_email
              user := user_info user }

/-- `login`: the handler with its two `except` clauses
(`frappe.ValidationError` returns `str(e)`, anything else is logged and
mapped to `"Authentication failed"`). -/
def login (s : St) (data : LoginRequest) : LoginResp :=
  match login_inner s data with
  | .ok r =>
    { status := "success", message := some "Login successful"
      access_token := some r.access_token, refresh_token := some r.refresh_token
      token_type := some "Bearer", user := some (user_info_of r) }
  | .error (.validationError m) => { status := "error", message := some m }
  | .error _ => { status := "error", message := some "Authentication failed" }
where
  user_info_of (r : LoginOk) : UserInfo := r.user

/-! ## `auth.refresh_token` and `auth.logout` -/

structure RefreshResp where
  status : String
  message : Option String := none
  access_token : Option Jwt := none
  token_type : Option String := none
deriving DecidableEq, Repr

/-- Body of the `try` block of `refresh_token`.  (The handler has access to
`frappe.cache()` through the state but — as in the source — never reads it:
in particular it never consults `is_refresh_token_blacklisted`.) -/
def refresh_token_inner (s : St) (tok : Jwt) : Except PyExc Jwt :=
  match verify_jwt_token s.conf s.now tok with
  | none => .error (.validationError "Invalid refresh token")
  | some payload =>
    if payload.type ≠ some "refresh" then
      .error (.validationError "Invalid refresh token")
    else
      let email := payload.email
      if ¬ user_exists s.users email then
        .error (.validationError "User not found")
      else
        match get_user_doc s.users email with
        | none => .error (.otherError "User not found")
        | some user =>
          if user.disabled then
            .error (.validationError "User account is disabled")
          else
            .ok (generate_jwt_token s.conf s.now email)

/-- `refresh_token`: handler with its `except` clauses. -/
def refresh_token (s : St) (tok : Jwt) : RefreshResp :=
  match refresh_token_inner s tok with
  | .ok t =>
    { status := "success", access_token := some t, token_type := some "Bearer" }
  | .error (.validationError m) => { status := "error", message := some m }
  | .error _ => { status := "error", message := some "Token refresh failed" }

structure SimpleResp where
  status : String
  message : String
deriving DecidableEq, Repr

/-- Body of the `try` block of `logout`: verify the refresh token, blacklist
it, clear the session. -/
def logout_inner (s : St) (tok : Jwt) : Except PyExc Cache :=
  match verify_jwt_token s.conf s.now tok with
  | none => .error (.validationError "Invalid refresh token")
  | some payload =>
    if payload.type ≠ some "refresh" then
      .error (.validationError "Invalid refresh token")
    else
      .ok (blacklist_refresh_token tok s.cache)

/-- `logout`: handler with its `except` clauses; returns the response and
the cache it leaves behind. -/
def logout (s : St) (tok : Jwt) : SimpleResp × Cache :=
  match logout_inner s tok with
  | .ok c => ({ status := "success", message := "Logged out successfully" }, c)
  | .error (.validationError m) => ({ status := "error", message := m }, s.cache)
  | .error _ => ({ status := "error", message := "Logout failed" }, s.cache)

/-! ## `auth.send_otp` and the signup/login OTP verification -/

structure OtpFlowResp where
  status : String
  message : String
  expires_in : Option Nat := none
deriving DecidableEq, Repr

/-- `send_otp(purpose, identifier, extra_data=None)`.  Note the parameter
list: there is no `expiry_minutes` parameter.  Uncaught exceptions
(`frappe.throw` on the resend limit, or an `AttributeError` when a non-dict
sits at the key) propagate to the caller. -/
def send_otp (s : St) (purpose identifier : String)
    (extra_data : Option OtpExtra := none) : Except PyExc OtpFlowResp × Cache :=
  let otp := generate_otp s.rng
  let otp_hash := hash_otp otp
  let expiry_minutes := get_otp_expiry_minutes s.conf
  let cache_key := "otp_" ++ purpose ++ "_" ++ identifier
  let store (resend_attempts : Nat) : Except PyExc OtpFlowResp × Cache :=
    let c2 := s.cache.set_value cache_key
      (.otp { otp_hash := otp_hash, attempts := 0
              resend_attempts := resend_attempts, verified := false
              created_at := s.now, extra := extra_data.getD {} })
      (expiry_minutes * 60)
    (.ok { status := "success", message := "OTP generated successfully"
           expires_in := some (expiry_minutes * 60) }, c2)
  match s.cache.get_value cache_key with
  | none => store 0
  | some (.flag b) =>
    if b then (.error (.otherError "AttributeError: bool has no attribute get"), s.cache)
    else store 0
  | some (.otp existing) =>
    let resend_attempts := existing.resend_attempts + 1
    if resend_attempts > get_otp_resend_limit_per_hour s.conf then
      (.error (.validationError
        "OTP resend limit exceeded. Please try again after some time."), s.cache)
    else store resend_attempts

structure VerifyOTPRequest where
  phone : String
  otp : String
deriving DecidableEq, Repr

structure VerifyResp where
  status : String
  message : String
  verified : Option Bool := none
  phone : Option String := none
  full_name : Option (Option String) := none
deriving DecidableEq, Repr

/-- `verify_signup_otp`: the whole handler including its `except` clauses;
returns the response and the cache it leaves behind.  A wrong OTP increments
`attempts` and re-caches before throwing; once `attempts >= 3` the entry is
rejected before the hash is even compared. -/
def verify_signup_otp (s : St) (data : VerifyOTPRequest) : VerifyResp × Cache :=
  let cache_key := "otp_signup_" ++ data.phone
  match s.cache.get_value cache_key with
  | none => ({ status := "error", message := "OTP expired or invalid" }, s.cache)
  | some (.flag b) =>
    if b then
      ({ status := "error", message := "Failed to verify OTP. Please try again." }, s.cache)
    else
      ({ status := "error", message := "OTP expired or invalid" }, s.cache)
  | some (.otp otp_data) =>
    if otp_data.attempts ≥ 3 then
      ({ status := "error", message := "Too many attempts. Request a new OTP" }, s.cache)
    else if hash_otp data.otp ≠ otp_data.otp_hash then
      let bumped := { otp_data with attempts := otp_data.attempts + 1 }
      let c2 := s.cache.set_value cache_key (.otp bumped)
        (get_otp_expiry_minutes s.conf * 60)
      ({ status := "error", message := "Invalid OTP" }, c2)
    else
      let verified := { otp_data with verified := true }
      let c2 := s.cache.set_value cache_key (.otp verified)
        (get_otp_expiry_minutes s.conf * 60)
      ({ status := "success", message := "OTP verified successfully"
         verified := some true, phone := some data.phone
         full_name := some otp_data.extra.full_name }, c2)

structure LoginOtpOk where
  status : String
  access_token : Jwt
  refresh_token : Jwt
deriving DecidableEq, Repr

/-- `verify_login_otp`: this handler has NO `try/except`, so `frappe.throw`
propagates; the result is the raw `Except` next to the cache the handler
leaves behind. -/
def verify_login_otp (s : St) (data : VerifyOTPRequest) :
    Except PyExc LoginOtpOk × Cache :=
  let key := "otp_login_" ++ data.phone
  match s.cache.get_value key with
  | none => (.error (.validationError "OTP expired"), s.cache)
  | some (.flag b) =>
    if b then (.error (.otherError "AttributeError: bool has no attribute get"), s.cache)
    else (.error (.validationError "OTP expired"), s.cache)
  | some (.otp cached) =>
    if cached.attempts ≥ 3 then
      (.error (.validationError "Too many attempts. Request a new OTP"), s.cache)
    else if hash_otp data.otp ≠ cached.otp_hash then
      let bumped := { cached with attempts := cached.attempts + 1 }
      let c2 := s.cache.set_value key (.otp bumped)
        (get_otp_expiry_minutes s.conf * 60)
      (.error (.validationError "Invalid OTP"), c2)
    else
      match cached.extra.user_email with
      | none => (.error (.validationError "Account not found"), s.cache)
      | some user_email =>
        if user_email = "" then
          (.error (.validationError "Account not found"), s.cache)
        else if ¬ s.users.any (fun u => u.name = user_email ∧ u.enabled = 1) then
          (.error (.validationError "Account not found or disabled"), s.cache)
        else
          let c2 := s.cache.delete_key key
          (.ok { status := "success"
                 access_token := generate_jwt_token s.conf s.now user_email
                 refresh_token := generate_refresh_token s.conf s.now user_email }, c2)

/-! ## `auth.forgot_password_request` and `auth.verify_reset_otp` -/

/-- The parameter names `send_otp` accepts (its `def` line). -/
def send_otp_params : List String := ["purpose", "identifier", "extra_data"]

/-- The keyword arguments `forgot_password_request` / `resend_reset_otp`
pass at their `send_otp(...)` call sites. -/
def send_otp_reset_call_kwargs : List String :=
  ["purpose", "identifier", "extra_data", "expiry_minutes"]

/-- The `send_otp(purpose="reset", identifier=.., extra_data=..,
expiry_minutes=15)` call site: CPython binds keyword arguments before the
callee body runs, and a keyword that is not a parameter of the callee raises
`TypeError` at the call. -/
def call_send_otp_reset (s : St) (identifier : Option String)
    (extra_data : Option OtpExtra) : Except PyExc OtpFlowResp × Cache :=
  if send_otp_reset_call_kwargs.all (fun k => send_otp_params.contains k) then
    send_otp s "reset" (identifier.getD "") extra_data
  else
    (.error (.typeError
      "send_otp() got an unexpected keyword argument expiry_minutes"), s.cache)

structure ForgotPasswordRequest where
  phone : Option String := none
  email : Option String := none
deriving DecidableEq, Repr

/-- Body of the `try` block of `forgot_password_request`. -/
def forgot_password_request_inner (s : St) (data : ForgotPasswordRequest) :
    Except PyExc OtpFlowResp × Cache :=
  if pyTruthyStr data.phone then
    let phone := data.phone.getD ""
    match s.users.find? (fun u => u.mobile_no = phone ∧ u.enabled = 1) with
    | none =>
      (.error (.validationError "No account found with this phone number"), s.cache)
    | some u =>
      call_send_otp_reset s (some u.name)
        (some { user_email := some u.name, phone := some phone
                name := some u.first_name })
  else if pyTruthyStr data.email then
    let email := data.email.getD ""
    if ¬ pyInStr '@' email then
      (.error (.validationError "Please enter a valid email address"), s.cache)
    else
      match s.users.find? (fun u => u.email = email ∧ u.enabled = 1) with
      | none =>
        (.error (.validationError "No account found with this email address"), s.cache)
      | some u =>
        call_send_otp_reset s (some u.name)
          (some { user_email := some u.name, phone := some u.mobile_no
                  name := some u.first_name })
  else
    call_send_otp_reset s none
      (some { user_email := none, phone := none, name := none })

/-- `forgot_password_request`: handler with its `except` clauses. -/
def forgot_password_request (s : St) (data : ForgotPasswordRequest) :
    OtpFlowResp × Cache :=
  match forgot_password_request_inner s data with
  | (.ok r, c) => (r, c)
  | (.error (.validationError m), c) => ({ status := "error", message := m }, c)
  | (.error _, c) =>
    ({ status := "error"
       message := "Failed to process request. Please try again." }, c)

structure VerifyResetOTPRequest where
  identifier : String
  otp : String
deriving DecidableEq, Repr

structure ResetVerifyResp where
  status : String
  message : String
  reset_token : Option String := none
  user_email : Option String := none
  expires_in : Option Nat := none
deriving DecidableEq, Repr

/-- Body of the `try` block of `verify_reset_otp`.  Note the cache key it
reads: `password_reset_<user_email>`. -/
def verify_reset_otp_inner (s : St) (data : VerifyResetOTPRequest) :
    Except PyExc ResetVerifyResp × Cache :=
  let identifier := data.identifier
  let user_list :=
    if identifier.length = 10 ∧ pyIsDigit identifier then
      s.users.find? (fun u => u.mobile_no = identifier ∧ u.enabled = 1)
    else
      s.users.find? (fun u => u.email = identifier ∧ u.enabled = 1)
  match user_list with
  | none => (.error (.validationError "Account not found"), s.cache)
  | some u =>
    let user_email := u.name
    let reset_key := "password_reset_" ++ user_email
    match s.cache.get_value reset_key with
    | none =>
      (.error (.validationError "Reset request has expired. Please request again."),
        s.cache)
    | some (.flag b) =>
      if b then
        (.error (.otherError "AttributeError: bool has no attribute get"), s.cache)
      else
        (.error (.validationError "Reset request has expired. Please request again."),
          s.cache)
    | some (.otp reset_data) =>
      if reset_data.attempts ≥ 3 then
        (.error (.validationError
          "Too many failed attempts. Please request a new OTP."), s.cache)
      else if hash_otp data.otp ≠ reset_data.otp_hash then
        let bumped := { reset_data with attempts := reset_data.attempts + 1 }
        (.error (.validationError "Invalid OTP"),
          s.cache.set_value reset_key (.otp bumped) (15 * 60))
      else
        let verified := { reset_data with verified := true }
        let c2 := s.cache.set_value reset_key (.otp verified) (15 * 60)
        let reset_token := s.fresh_hash
        let withTok := { verified with reset_token := some reset_token }
        let c3 := c2.set_value reset_key (.otp withTok) (15 * 60)
        (.ok { status := "success", message := "OTP verified successfully"
               reset_token := some reset_token, user_email := some user_email
               expires_in := some (get_otp_expiry_minutes s.conf * 60) }, c3)

/-- `verify_reset_otp`: handler with its `except` clauses. -/
def verify_reset_otp (s : St) (data : VerifyResetOTPRequest) :
    ResetVerifyResp × Cache :=
  match verify_reset_otp_inner s data with
  | (.ok r, c) => (r, c)
  | (.error (.validationError m), c) => ({ status := "error", message := m }, c)
  | (.error _, c) =>
    ({ status := "error"
       message := "Failed to verify OTP. Please try again." }, c)

/-! ## `quotation.py`: status maps and `get_quotations` -/

/-- The `status_map` dict of `update_quotation_status` (React status → ERP
status). -/
def status_map (status : String) : Option String :=
  List.lookup status
    [("draft", "Draft"), ("sent", "Submitted"), ("approved", "Ordered"),
     ("rejected", "Lost"), ("expired", "Expired"), ("paid", "Ordered")]

/-- `get_react_status(erp_status)` (ERP status → React status, defaulting to
`"draft"`). -/
def get_react_status (erp_status : String) : String :=
  (List.lookup erp_status
    [("Draft", "draft"), ("Submitted", "sent"), ("Open", "sent"),
     ("Replied", "sent"), ("Partially Ordered", "approved"),
     ("Ordered", "approved"), ("Lost", "rejected"), ("Cancelled", "rejected"),
     ("Expired", "expired")]).getD "draft"

/-- `flt(a) or flt(b)` on totals: `a` unless it is zero. -/
def pyOrRat (a b : Rat) : Rat := if a = 0 then b else a

structure QuotationRow where
  name : String
  party_name : String
  contact_email : Option String := none
  transaction_date : String := ""
  valid_till : Option String := none
  net_total : Rat := 0
  grand_total : Rat := 0
  rounded_total : Rat := 0
  status : String := "Draft"
  company : String := ""
deriving DecidableEq, Repr

structure QuotationItemRow where
  parent : String
  item_code : String
  item_name : String := ""
  qty : Rat := 0
  rate : Rat := 0
  amount : Rat := 0
  image : Option String := none
deriving DecidableEq, Repr

structure CustomerDoc where
  name : String
  customer_name : String := ""
  mobile_no : Option String := none
  tax_id : Option String := none
deriving DecidableEq, Repr

structure CompanyDoc where
  name : String
  company_name : String := ""
  tax_id : Option String := none
  default_currency : String := "INR"
deriving DecidableEq, Repr

/-- The tables `get_quotations` reads, `quotations` ordered by
`modified desc` as the query requests. -/
structure QDb where
  quotations : List QuotationRow := []
  quotation_items : List QuotationItemRow := []
  customers : List CustomerDoc := []
  companies : List CompanyDoc := []

structure QItemOut where
  productId : String
  productName : String
  quantity : Rat
  unitPrice : Rat
  totalPrice : Rat
  image : Option String
deriving DecidableEq, Repr

structure CompanyOut where
  name : String
  gst : Option String
  currency : String
deriving DecidableEq, Repr

structure QuotationOut where
  id : String
  quotationNumber : String
  customerName : String
  customerEmail : String
  customerPhone : String
  customerGST : String
  company : CompanyOut
  items : List QItemOut
  subtotal : Rat
  gst : Rat
  total : Rat
  status : String
  createdDate : String
  validUntil : Option String
deriving DecidableEq, Repr

structure QuotationsResp where
  success : Bool
  data : Option (List QuotationOut) := none
  error : Option String := none
deriving DecidableEq, Repr

/-- The per-quotation body of the `get_quotations` loop;
`frappe.get_doc("Customer"/"Company", ..)` raises `DoesNotExistError` when
the linked document is missing. -/
def get_quotations_row (db : QDb) (q : QuotationRow) : Except PyExc QuotationOut :=
  match db.customers.find? (fun c => c.name = q.party_name) with
  | none => .error (.otherError ("Customer " ++ q.party_name ++ " not found"))
  | some customer =>
    match db.companies.find? (fun c => c.name = q.company) with
    | none => .error (.otherError ("Company " ++ q.company ++ " not found"))
    | some company =>
      let subtotal := q.net_total
      let total := pyOrRat q.grand_total q.rounded_total
      let gst := total - subtotal
      let items := (db.quotation_items.filter (fun i => i.parent = q.name)).map
        (fun i => { productId := i.item_code, productName := i.item_name
                    quantity := i.qty, unitPrice := i.rate
                    totalPrice := i.amount, image := i.image })
      .ok { id := q.name, quotationNumber := q.name
            customerName := customer.customer_name
            customerEmail := q.contact_email.getD ""
            customerPhone := customer.mobile_no.getD ""
            customerGST := customer.tax_id.getD ""
            company := { name := company.company_name, gst := company.tax_id
                         currency := company.default_currency }
            items := items, subtotal := subtotal, gst := gst, total := total
            status := get_react_status q.status
            createdDate := q.transaction_date, validUntil := q.valid_till }

/-- Body of the `try` block of `get_quotations`. -/
def get_quotations_inner (db : QDb) (page page_size : Int) :
    Except PyExc (List QuotationOut) :=
  let start := (page - 1) * page_size
  let rows := (db.quotations.drop start.toNat).take page_size.toNat
  rows.foldr
    (fun q acc =>
      match get_quotations_row db q, acc with
      | .ok d, .ok ds => .ok (d :: ds)
      | .error e, _ => .error e
      | _, .error e => .error e)
    (.ok [])

/-- `get_quotations`: its `except Exception` clause returns
`{"success": False, "error": str(e)}`. -/
def get_quotations (db : QDb) (page page_size : Int) : QuotationsResp :=
  match get_quotations_inner db page page_size with
  | .ok d => { success := true, data := some d }
  | .error e => { success := false, error := some e.str }

/-! ## `cart.py` -/

structure WebsiteItem where
  item_code : String
  web_item_name : String := ""
  stock_uom : String := ""
  published : Bool := true
  website_image : Option String := none
deriving DecidableEq, Repr

structure CartItemRow where
  name : String := ""
  item_code : String
  item_name : String := ""
  qty : Rat := 0
  uom : String := ""
deriving DecidableEq, Repr

/-- A `Quick Order` document (the cart): child item table `table_effn` and
`docstatus` 0 = draft, 1 = submitted, 2 = cancelled. -/
structure QuickOrder where
  name : String
  customer : String
  docstatus : Nat := 0
  table_effn : List CartItemRow := []
  shipping_process : Option String := none
  shipping_address : Option String := none
  billing_address : Option String := none
  warehouse : Option String := none
deriving DecidableEq, Repr

structure ItemPrice where
  item_code : String
  selling : Bool := true
  price_list_rate : Rat := 0
deriving DecidableEq, Repr

structure DynamicLink where
  link_doctype : String
  link_name : String
  parenttype : String
  parent : String
deriving DecidableEq, Repr

/-- The tables the cart handlers touch; `quick_orders` ordered by
`modified desc` as `_get_existing_cart` requests. -/
structure CartDb where
  customers : List String := []
  quick_orders : List QuickOrder := []
  website_items : List WebsiteItem := []
  shipping_processes : List String := []
  available_warehouses : List String := []
  item_prices : List ItemPrice := []
  dynamic_links : List DynamicLink := []

/-- `frappe.db.exists("Customer", customer)`. -/
def customer_exists (db : CartDb) (customer : String) : Bool :=
  db.customers.contains customer

/-- `frappe.db.get_value("Website Item", {"item_code": code}, ...)`. -/
def website_item_of (db : CartDb) (code : String) : Option WebsiteItem :=
  db.website_items.find? (fun w => w.item_code = code)

/-- `frappe.db.get_value("Item Price", {"item_code": .., "selling": 1},
"price_list_rate") or 0`. -/
def item_price_of (db : CartDb) (code : String) : Rat :=
  ((db.item_prices.find? (fun p => p.item_code = code ∧ p.selling)).map
    (fun p => p.price_list_rate)).getD 0

/-- `_get_existing_cart(customer)`: latest draft Quick Order of the
customer, or `None`. -/
def get_existing_cart (db : CartDb) (customer : String) : Option QuickOrder :=
  db.quick_orders.find? (fun o => o.customer = customer ∧ o.docstatus = 0)

/-- `doc.save()`: write the mutated document back by name. -/
def qo_save (db : CartDb) (cart : QuickOrder) : CartDb :=
  { db with quick_orders :=
      db.quick_orders.map (fun o => if o.name = cart.name then cart else o) }

/-- The name the framework assigns to a freshly inserted Quick Order. -/
def new_cart_name (db : CartDb) : String :=
  "QO-" ++ toString db.quick_orders.length

/-- `_get_or_create_cart(customer, shipping_process, shipping_address,
billing_address, items)`.  (The `date` field set from `frappe.utils.now()`
carries no behaviour read by any handler and is not modelled.) -/
def get_or_create_cart (db : CartDb) (customer : String)
    (shipping_process : Option String) (shipping_address : Option String)
    (billing_address : Option String) (items : List CartItemRow) :
    Except PyExc (QuickOrder × CartDb) :=
  match get_existing_cart db customer with
  | some cart => .ok (cart, db)
  | none =>
    if ¬ pyTruthyStr shipping_process then
      .error (.validationError "Shipping Process is required to create a cart")
    else if items.isEmpty then
      .error (.validationError
        "At least one item with qty > 0 is required to create a cart")
    else
      match db.available_warehouses.head? with
      | none =>
        .error (.validationError "No Available Warehouse found to create cart")
      | some available_warehouse =>
        let cart : QuickOrder :=
          { name := new_cart_name db, customer := customer, docstatus := 0
            table_effn := items, shipping_process := shipping_process
            warehouse := some available_warehouse }
        let cart :=
          if pyTruthyStr shipping_address then
            { cart with shipping_address := shipping_address
                        billing_address := shipping_address }
          else if pyTruthyStr billing_address then
            { cart with billing_address := billing_address }
          else cart
        .ok (cart, { db with quick_orders := db.quick_orders ++ [cart] })

/-- One `items` entry as received by `update_cart` (a dict that may lack
either key; `.get("qty", 0)` supplies the default). -/
structure ItemUpdate where
  item_code : Option String := none
  qty : Option Rat := none
deriving DecidableEq, Repr

structure NormEntry where
  code : String
  qty : Rat
deriving DecidableEq, Repr

/-- The pre-validation loop of `update_cart`: normalises each entry,
validates `item_code` and `qty`, and populates `item_details_cache` from the
`Website Item` table for `qty > 0` entries (throwing when the item is
missing or unpublished).  `qty == 0` entries are normalised without any
Website Item lookup. -/
def prevalidate_items (db : CartDb) :
    List ItemUpdate → List NormEntry → List (String × WebsiteItem) →
    Except PyExc (List NormEntry × List (String × WebsiteItem))
  | [], acc, cache => .ok (acc, cache)
  | iu :: rest, acc, cache =>
    let item_code := iu.item_code
    let qty := iu.qty.getD 0
    if ¬ pyTruthyStr item_code then
      .error (.validationError "item_code is required")
    else
      let code := item_code.getD ""
      if qty < 0 then
        .error (.validationError "qty cannot be negative")
      else if qty > 0 ∧ (List.lookup code cache).isNone then
        match website_item_of db code with
        | none => .error (.validationError ("Item " ++ code ++ " not available"))
        | some website_item =>
          if ¬ website_item.published then
            .error (.validationError ("Item " ++ code ++ " not available"))
          else
            prevalidate_items db rest (acc ++ [⟨code, qty⟩])
              (cache ++ [(code, website_item)])
      else
        prevalidate_items db rest (acc ++ [⟨code, qty⟩]) cache

/-- `cart.remove(existing_item)`: drop the first row with the code. -/
def erase_first_by_code : List CartItemRow → String → List CartItemRow
  | [], _ => []
  | r :: rest, code =>
    if r.item_code = code then rest else r :: erase_first_by_code rest code

/-- `existing_item.qty = qty` on the first row with the code. -/
def update_first_qty : List CartItemRow → String → Rat → List CartItemRow
  | [], _, _ => []
  | r :: rest, code, qty =>
    if r.item_code = code then { r with qty := qty } :: rest
    else r :: update_first_qty rest code qty

/-- The merge loop of `update_cart` over an existing cart's rows: `qty == 0`
removes the row when present, otherwise the first matching row's qty is
updated or a new row is appended from the cached Website Item details. -/
def merge_items (cache : List (String × WebsiteItem)) :
    List NormEntry → List CartItemRow → Except PyExc (List CartItemRow)
  | [], rows => .ok rows
  | e :: rest, rows =>
    let existing_item := rows.find? (fun r => r.item_code = e.code)
    if e.qty = 0 then
      match existing_item with
      | some _ => merge_items cache rest (erase_first_by_code rows e.code)
      | none => merge_items cache rest rows
    else
      match existing_item with
      | some _ => merge_items cache rest (update_first_qty rows e.code e.qty)
      | none =>
        match List.lookup e.code cache with
        | some details =>
          merge_items cache rest (rows ++
            [{ item_code := details.item_code
               item_name := details.web_item_name
               qty := e.qty, uom := details.stock_uom }])
        | none => .error (.otherError "KeyError")

/-- The creation-path row builder of `update_cart` (`qty > 0` entries turned
into child rows from the cached Website Item details). -/
def build_creation_rows (cache : List (String × WebsiteItem)) :
    List NormEntry → Except PyExc (List CartItemRow)
  | [] => .ok []
  | e :: rest =>
    if e.qty > 0 then
      match List.lookup e.code cache with
      | none => .error (.otherError "AttributeError: NoneType has no attribute item_code")
      | some details =>
        (build_creation_rows cache rest).map
          (fun rows =>
            ({ item_code := details.item_code
               item_name := details.web_item_name
               qty := e.qty, uom := details.stock_uom } : CartItemRow) :: rows)
    else build_creation_rows cache rest

structure CartResp where
  success : Bool
  message : Option String := none
  cart_id : Option String := none
deriving DecidableEq, Repr

/-- `_validate_address(addr)` inside `update_cart`: ownership through the
Dynamic Link table, vacuously true for an absent address. -/
def validate_address (db : CartDb) (customer : String)
    (addr : Option String) : Bool :=
  if ¬ pyTruthyStr addr then true
  else db.dynamic_links.any (fun l =>
    l.link_doctype = "Customer" ∧ l.link_name = customer ∧
    l.parenttype = "Address" ∧ l.parent = addr.getD "")

/-- `update_cart(customer, items, shipping_process, shipping_address,
billing_address)`.  The handler has NO `try/except`: `frappe.throw`
propagates.  An empty `items` list stands for the absent (`None`)
argument. -/
def update_cart (db : CartDb) (customer : String)
    (items : List ItemUpdate := [])
    (shipping_process : Option String := none)
    (shipping_address : Option String := none)
    (billing_address : Option String := none) :
    Except PyExc CartResp × CartDb :=
  if customer = "" then
    (.error (.validationError "customer is required"), db)
  else if ¬ customer_exists db customer then
    (.error (.validationError "Customer not found"), db)
  else if items.isEmpty ∧ ¬ pyTruthyStr shipping_process ∧
      ¬ pyTruthyStr shipping_address ∧ ¬ pyTruthyStr billing_address then
    (.error (.validationError
      "At least one of items, shipping_process, shipping_address, or billing_address must be provided"),
      db)
  else
    let cart? := get_existing_cart db customer
    if ¬ items.isEmpty then
      match prevalidate_items db items [] [] with
      | .error e => (.error e, db)
      | .ok (normalized_items, item_details_cache) =>
        match cart? with
        | none =>
          match build_creation_rows item_details_cache normalized_items with
          | .error e => (.error e, db)
          | .ok creation_rows =>
            if creation_rows.isEmpty then
              (.error (.validationError
                "At least one item with qty > 0 is required to create a cart"), db)
            else
              let shipping_process :=
                if pyTruthyStr shipping_process then shipping_process
                else db.shipping_processes.head?
              if ¬ pyTruthyStr shipping_process then
                (.error (.validationError "No Shipping Process available"), db)
              else
                match get_or_create_cart db customer shipping_process
                    shipping_address billing_address creation_rows with
                | .error e => (.error e, db)
                | .ok (cart, db2) =>
                  (.ok { success := true
                         message := some "Cart updated successfully"
                         cart_id := some cart.name }, db2)
        | some cart =>
          match merge_items item_details_cache normalized_items cart.table_effn with
          | .error e => (.error e, db)
          | .ok rows =>
            let cart := { cart with table_effn := rows }
            let cart :=
              if pyTruthyStr shipping_address then
                { cart with shipping_address := shipping_address
                            billing_address := shipping_address }
              else if pyTruthyStr billing_address then
                { cart with billing_address := billing_address }
              else cart
            if pyTruthyStr shipping_process then
              if ¬ db.shipping_processes.contains (shipping_process.getD "") then
                (.error (.validationError "Invalid Shipping Process"), db)
              else
                let cart := { cart with shipping_process := shipping_process }
                (.ok { success := true
                       message := some "Cart updated successfully"
                       cart_id := some cart.name }, qo_save db cart)
            else
              (.ok { success := true
                     message := some "Cart updated successfully"
                     cart_id := some cart.name }, qo_save db cart)
    else
      match cart? with
      | none =>
        (.error (.validationError "Cart not found for this customer"), db)
      | some cart =>
        let checkSp : Except PyExc (Option String) :=
          if pyTruthyStr shipping_process then
            if ¬ db.shipping_processes.contains (shipping_process.getD "") then
              .error (.validationError "Invalid Shipping Process")
            else .ok shipping_process
          else .ok none
        match checkSp with
        | .error e => (.error e, db)
        | .ok sp =>
          let cart :=
            match sp with
            | some _ => { cart with shipping_process := sp }
            | none => cart
          if pyTruthyStr shipping_address ∧
              ¬ validate_address db customer shipping_address then
            (.error (.permissionError "Shipping address not found or unauthorized"), db)
          else if pyTruthyStr billing_address ∧
              ¬ validate_address db customer billing_address then
            (.error (.permissionError "Billing address not found or unauthorized"), db)
          else
            let cart :=
              if pyTruthyStr shipping_address then
                { cart with shipping_address := shipping_address
                            billing_address := shipping_address }
              else if pyTruthyStr billing_address then
                { cart with billing_address := billing_address }
              else cart
            (.ok { success := true
                   message := some "Cart updated successfully"
                   cart_id := some cart.name }, qo_save db cart)

structure GetCartItemOut where
  name : String
  item_code : String
  item_name : String
  qty : Rat
  uom : String
  price : Rat
  total : Rat
  image : Option String
deriving DecidableEq, Repr

/-- The `data` dict of `get_cart`; `Option (Option _)` distinguishes an
absent key (the nonexistent-customer return carries only `items`/`total`)
from a key with value `None`. -/
structure GetCartData where
  cart_id : Option String := none
  items : List GetCartItemOut := []
  total : Rat := 0
  shipping_address : Option (Option String) := none
  billing_address : Option (Option String) := none
  shipping_process : Option (Option String) := none
deriving DecidableEq, Repr

structure GetCartResp where
  success : Bool
  data : GetCartData
deriving DecidableEq, Repr

/-- `get_cart(customer)` (no `try/except`; the only throw is the empty
customer guard). -/
def get_cart (db : CartDb) (customer : String) : Except PyExc GetCartResp :=
  if customer = "" then
    .error (.validationError "customer is required")
  else if ¬ customer_exists db customer then
    .ok { success := true, data := { items := [], total := 0 } }
  else
    match get_existing_cart db customer with
    | none =>
      .ok { success := true
            data := { items := [], total := 0
                      shipping_address := some none
                      billing_address := some none
                      shipping_process := some none } }
    | some cart =>
      let items := cart.table_effn.map (fun item =>
        let website_item := website_item_of db item.item_code
        let price := item_price_of db item.item_code
        let item_total := price * item.qty
        { name := item.name, item_code := item.item_code
          item_name := match website_item with
                       | some w => w.web_item_name
                       | none => item.item_name
          qty := item.qty, uom := item.uom, price := price, total := item_total
          image := website_item.bind (fun w => w.website_image) })
      let total := (cart.table_effn.map
        (fun item => item_price_of db item.item_code * item.qty)).sum
      .ok { success := true
            data := { cart_id := some cart.name, items := items, total := total
                      shipping_address := some cart.shipping_address
                      billing_address := some cart.billing_address
                      shipping_process := some cart.shipping_process } }

/-- `clear_cart(customer)` (no `try/except`). -/
def clear_cart (db : CartDb) (customer : String) :
    Except PyExc CartResp × CartDb :=
  if customer = "" then
    (.error (.validationError "customer is required"), db)
  else if ¬ customer_exists db customer then
    (.error (.validationError "Customer not found"), db)
  else
    match get_existing_cart db customer with
    | none => (.error (.validationError "Cart not found"), db)
    | some cart =>
      let cart := { cart with table_effn := [] }
      (.ok { success := true, message := some "Cart cleared" }, qo_save db cart)

/-- `submit_cart(customer, cart_id=None)` (no `try/except`): validates the
customer, resolves the cart (by id with an ownership check, or the latest
draft cart), then requires draft status, a non-empty item table and a
shipping process before `cart.submit()` sets `docstatus` to 1. -/
def submit_cart (db : CartDb) (customer : String)
    (cart_id : Option String := none) : Except PyExc CartResp × CartDb :=
  if customer = "" then
    (.error (.validationError "customer is required"), db)
  else if ¬ customer_exists db customer then
    (.error (.validationError "Customer not found"), db)
  else
    let cartE : Except PyExc QuickOrder :=
      if pyTruthyStr cart_id then
        let cid := cart_id.getD ""
        match (db.quick_orders.find? (fun o => o.name = cid)).map
            (fun o => o.customer) with
        | none => .error (.validationError "Cart not found")
        | some cart_customer =>
          if cart_customer ≠ customer then
            .error (.permissionError "Unauthorized access to cart")
          else
            match db.quick_orders.find? (fun o => o.name = cid) with
            | some c => .ok c
            | none => .error (.otherError "DoesNotExistError")
      else
        match get_existing_cart db customer with
        | none => .error (.validationError "Cart not found for this customer")
        | some c => .ok c
    match cartE with
    | .error e => (.error e, db)
    | .ok cart =>
      if cart.docstatus ≠ 0 then
        (.error (.validationError "Cart is already submitted or cancelled"), db)
      else if cart.table_effn.isEmpty then
        (.error (.validationError "Cannot submit an empty cart"), db)
      else if ¬ pyTruthyStr cart.shipping_process then
        (.error (.validationError "Shipping Process is required to submit cart"), db)
      else
        (.ok { success := true, message := some "Cart submitted successfully"
               cart_id := some cart.name }, qo_save db { cart with docstatus := 1 })

/-! ## Theorems -/

/-- C9: `generate_otp` is deterministic: the `random` module (the `rng`
argument) is never consulted — every call with equal `length` yields the
same string, and with the default length 6 it always returns `"123456"`,
the first six characters of `"123456789"`. -/
theorem C9_generate_otp_deterministic :
    (∀ (r₁ r₂ : Nat → Nat) (len : Int),
        generate_otp r₁ len = generate_otp r₂ len) ∧
    (∀ r : Nat → Nat, generate_otp r = "123456") := by
  constructor
  · intro r₁ r₂ len; rfl
  · intro r; rfl

/-- C4 counterexample: the status round trip fails at `"paid"`:
`status_map` sends it to `"Ordered"` and `get_react_status` sends
`"Ordered"` back to `"approved"`, not `"paid"`. -/
theorem C4_paid_roundtrip_fails :
    (status_map "paid").map get_react_status = some "approved" ∧
    "approved" ≠ "paid" := by
  exact ⟨rfl, by decide⟩

/-- C4 (amended): for the five statuses draft, sent, approved, rejected and
expired, mapping through `status_map` and back through `get_react_status`
yields the original string; `"paid"` maps to `"Ordered"` and comes back as
`"approved"`. -/
theorem C4_roundtrip_amended :
    ((status_map "draft").map get_react_status = some "draft") ∧
    ((status_map "sent").map get_react_status = some "sent") ∧
    ((status_map "approved").map get_react_status = some "approved") ∧
    ((status_map "rejected").map get_react_status = some "rejected") ∧
    ((status_map "expired").map get_react_status = some "expired") ∧
    ((status_map "paid").map get_react_status = some "approved") := by
  exact ⟨rfl, rfl, rfl, rfl, rfl, rfl⟩

def c1_conf : Conf := {}

def c1_user : User :=
  { name := "a@b.com", email := "a@b.com", mobile_no := "9876543210" }

def c1_refresh_tok : Jwt := generate_refresh_token c1_conf 0 "a@b.com"

def c1_state : St := { conf := c1_conf, users := [c1_user], now := 0 }

def c1_cache_after_logout : Cache := (logout c1_state c1_refresh_tok).2

/-- C1: evaluation at the failing input.  `logout` succeeds and sets the
`blacklist_refresh_<token>` cache entry (so `is_refresh_token_blacklisted`
reports `true` for as long as the entry lives), yet a subsequent
`refresh_token` call with the very same token returns `status: success` and
a new access token: the handler never consults the blacklist. -/
theorem C1_refresh_ignores_blacklist :
    (logout c1_state c1_refresh_tok).1.status = "success" ∧
    is_refresh_token_blacklisted c1_refresh_tok c1_cache_after_logout = true ∧
    refresh_token { c1_state with cache := c1_cache_after_logout } c1_refresh_tok =
      { status := "success"
        access_token := some (generate_jwt_token c1_conf 0 "a@b.com")
        token_type := some "Bearer" } := by
  exact ⟨rfl, rfl, rfl⟩

def c2_user : User :=
  { name := "u@e.com", email := "u@e.com", mobile_no := "9876543210"
    first_name := "U" }

def c2_state : St := { users := [c2_user] }

def c2_req : ForgotPasswordRequest := { phone := some "9876543210" }

/-- C2: evaluation at the failing input.  For an enabled user found by
phone, `forgot_password_request` does NOT return success: its
`send_otp(..., expiry_minutes=15)` call raises `TypeError` (`send_otp` has
no `expiry_minutes` parameter), the broad `except` maps it to the generic
failure message, and no reset entry is cached — so `verify_reset_otp` with
the matching OTP (`"123456"`, the code `generate_otp` would produce)
reports the reset request as expired. -/
theorem C2_forgot_password_flow_broken :
    forgot_password_request c2_state c2_req =
      ({ status := "error"
         message := "Failed to process request. Please try again." },
        c2_state.cache) ∧
    (verify_reset_otp
        { c2_state with cache := (forgot_password_request c2_state c2_req).2 }
        { identifier := "9876543210", otp := generate_otp c2_state.rng }).1 =
      { status := "error"
        message := "Reset request has expired. Please request again." } := by
  refine ⟨rfl, ?_⟩
  rfl

def c3_state : St := {}

/-- C3 counterexample: the claim fails in two ways at concrete inputs.
`login` on an unknown user returns the `frappe.ValidationError`'s own text
("Invalid credentials, user not found"), not a generic message; and
`verify_login_otp` has no broad exception handler at all — on an empty
cache its result is a propagating `frappe.throw`, not an error-shaped
response object. -/
theorem C3_validation_text_not_generic :
    login c3_state { username := "ghost@x.com", password := "pw" } =
      { status := "error", message := some "Invalid credentials, user not found" } ∧
    "Invalid credentials, user not found" ≠ "Authentication failed" ∧
    (verify_login_otp c3_state { phone := "9999999999", otp := "123456" }).1 =
      .error (.validationError "OTP expired") := by
  refine ⟨rfl, by decide, rfl⟩

/-- C3 (amended): the handlers that wrap their body in `try/except` —
`login`, `refresh_token`, `forgot_password_request`, `verify_reset_otp`,
`verify_signup_otp` — return `{"status": "error", "message": ...}` on every
exception, with the `frappe.ValidationError` text returned verbatim as the
message and every other exception (permission errors included) mapped to
that handler's fixed generic message; `get_quotations` catches every
exception and returns `{"success": False, "error": str(e)}` with `str(e)`
verbatim; and `verify_login_otp` and the cart handlers (`update_cart`,
`get_cart`, `clear_cart`, `submit_cart`) have no broad exception handler:
their `frappe.throw` propagates as an exception instead of an error-shaped
response object. -/
theorem C3_error_handling_amended :
    (∀ (s : St) (data : LoginRequest),
        ((login s data).status = "success" ∨ (login s data).status = "error") ∧
        (∀ m, login_inner s data = .error (.validationError m) →
          login s data = { status := "error", message := some m }) ∧
        (∀ e, login_inner s data = .error e → (∀ m, e ≠ .validationError m) →
          login s data =
            { status := "error", message := some "Authentication failed" })) ∧
    (∀ (s : St) (tok : Jwt),
        ((refresh_token s tok).status = "success" ∨
          (refresh_token s tok).status = "error") ∧
        (∀ m, refresh_token_inner s tok = .error (.validationError m) →
          refresh_token s tok = { status := "error", message := some m }) ∧
        (∀ e, refresh_token_inner s tok = .error e →
          (∀ m, e ≠ .validationError m) →
          refresh_token s tok =
            { status := "error", message := some "Token refresh failed" })) ∧
    (∀ (s : St) (data : ForgotPasswordRequest),
        (∀ m c, forgot_password_request_inner s data = (.error (.validationError m), c) →
          forgot_password_request s data = ({ status := "error", message := m }, c)) ∧
        (∀ e c, forgot_password_request_inner s data = (.error e, c) →
          (∀ m, e ≠ .validationError m) →
          forgot_password_request s data =
            ({ status := "error"
               message := "Failed to process request. Please try again." }, c))) ∧
    (∀ (s : St) (data : VerifyResetOTPRequest),
        (∀ m c, verify_reset_otp_inner s data = (.error (.validationError m), c) →
          verify_reset_otp s data = ({ status := "error", message := m }, c)) ∧
        (∀ e c, verify_reset_otp_inner s data = (.error e, c) →
          (∀ m, e ≠ .validationError m) →
          verify_reset_otp s data =
            ({ status := "error"
               message := "Failed to verify OTP. Please try again." }, c))) ∧
    (∀ (s : St) (data : VerifyOTPRequest),
        ((verify_signup_otp s data).1.status = "success" ∨
          (verify_signup_otp s data).1.status = "error") ∧
        (s.cache.get_value ("otp_signup_" ++ data.phone) = none →
          verify_signup_otp s data =
            ({ status := "error", message := "OTP expired or invalid" }, s.cache)) ∧
        (s.cache.get_value ("otp_signup_" ++ data.phone) = some (.flag true) →
          verify_signup_otp s data =
            ({ status := "error"
               message := "Failed to verify OTP. Please try again." }, s.cache))) ∧
    (∀ (db : QDb) (page page_size : Int),
        (∀ d, get_quotations_inner db page page_size = .ok d →
          get_quotations db page page_size = { success := true, data := some d }) ∧
        (∀ e, get_quotations_inner db page page_size = .error e →
          get_quotations db page page_size =
            { success := false, error := some e.str })) ∧
    (∀ (s : St) (data : VerifyOTPRequest),
        s.cache.get_value ("otp_login_" ++ data.phone) = none →
        (verify_login_otp s data).1 = .error (.validationError "OTP expired")) ∧
    (∀ (db : CartDb) (customer : String) (items : List ItemUpdate)
        (sp sa ba : Option String),
        customer ≠ "" → customer_exists db customer = false →
        update_cart db customer items sp sa ba =
          (.error (.validationError "Customer not found"), db)) ∧
    (∀ (db : CartDb) (customer : String),
        customer ≠ "" → customer_exists db customer = true →
        get_existing_cart db customer = none →
        clear_cart db customer = (.error (.validationError "Cart not found"), db)) ∧
    (∀ (db : CartDb) (customer : String) (cart_id : Option String),
        customer = "" →
        submit_cart db customer cart_id =
          (.error (.validationError "customer is required"), db)) ∧
    (∀ (db : CartDb) (customer : String),
        customer = "" →
        get_cart db customer = .error (.validationError "customer is required")) := by
  refine ⟨?_, ?_, ?_, ?_, ?_, ?_, ?_, ?_, ?_, ?_, ?_⟩
  · intro s data
    refine ⟨?_, ?_, ?_⟩
    · cases h : login_inner s data with
      | ok r => left; simp [login, h]
      | error e => right; cases e <;> simp [login, h]
    · intro m h
      simp [login, h]
    · intro e h hne
      cases e with
      | validationError m => exact absurd rfl (hne m)
      | permissionError m => simp [login, h]
      | typeError m => simp [login, h]
      | otherError m => simp [login, h]
  · intro s tok
    refine ⟨?_, ?_, ?_⟩
    · cases h : refresh_token_inner s tok with
      | ok t => left; simp [refresh_token, h]
      | error e => right; cases e <;> simp [refresh_token, h]
    · intro m h
      simp [refresh_token, h]
    · intro e h hne
      cases e with
      | validationError m => exact absurd rfl (hne m)
      | permissionError m => simp [refresh_token, h]
      | typeError m => simp [refresh_token, h]
      | otherError m => simp [refresh_token, h]
  · intro s data
    constructor
    · intro m c h
      simp [forgot_password_request, h]
    · intro e c h hne
      cases e with
      | validationError m => exact absurd rfl (hne m)
      | permissionError m => simp [forgot_password_request, h]
      | typeError m => simp [forgot_password_request, h]
      | otherError m => simp [forgot_password_request, h]
  · intro s data
    constructor
    · intro m c h
      simp [verify_reset_otp, h]
    · intro e c h hne
      cases e with
      | validationError m => exact absurd rfl (hne m)
      | permissionError m => simp [verify_reset_otp, h]
      | typeError m => simp [verify_reset_otp, h]
      | otherError m => simp [verify_reset_otp, h]
  · intro s data
    refine ⟨?_, ?_, ?_⟩
    · cases hc : s.cache.get_value ("otp_signup_" ++ data.phone) with
      | none => right; simp [verify_signup_otp, hc]
      | some v =>
        cases v with
        | flag b => cases b <;> (right; simp [verify_signup_otp, hc])
        | otp d =>
          by_cases h3 : d.attempts ≥ 3
          · right; simp [verify_signup_otp, hc, h3]
          · by_cases hw : hash_otp data.otp ≠ d.otp_hash
            · right; simp [verify_signup_otp, hc, h3, hw]
            · left; simp [verify_signup_otp, hc, h3, hw]
    · intro h
      simp [verify_signup_otp, h]
    · intro h
      simp [verify_signup_otp, h]
  · intro db page page_size
    constructor
    · intro d h
      simp [get_quotations, h]
    · intro e h
      simp [get_quotations, h]
  · intro s data h
    simp [verify_login_otp, h]
  · intro db customer items sp sa ba hne hex
    simp [update_cart, hne, hex]
  · intro db customer hne hex hnone
    simp [clear_cart, hne, hex, hnone]
  · intro db customer cart_id h
    simp [submit_cart, h]
  · intro db customer h
    simp [get_cart, h]

/-- Closed witness for the amended C3 statement: the ValidationError text
thrown inside `login` is returned verbatim. -/
theorem C3_error_handling_amended_witness :
    login {} { username := "ghost2@x.com", password := "pw" } =
      { status := "error", message := some "Invalid credentials, user not found" } :=
  ((C3_error_handling_amended.1 {} { username := "ghost2@x.com", password := "pw" }).2.1)
    "Invalid credentials, user not found" (by rfl)
/-- C5: the cached attempt counter is enforced in both `verify_signup_otp`
and `verify_login_otp`: a wrong OTP (while under the limit) increments the
cached `attempts` counter and re-caches the entry, and once `attempts` has
reached 3 every verification attempt on that entry is rejected — whatever
OTP is submitted, correct or not — with the cache left unchanged, so the
rejection persists until a new OTP replaces the entry. -/
theorem C5_otp_attempt_counter :
    ∀ (s : St) (data : VerifyOTPRequest) (d : OtpData),
      (s.cache.get_value ("otp_signup_" ++ data.phone) = some (.otp d) →
        (d.attempts < 3 → hash_otp data.otp ≠ d.otp_hash →
          verify_signup_otp s data =
            ({ status := "error", message := "Invalid OTP" },
              s.cache.set_value ("otp_signup_" ++ data.phone)
                (.otp { d with attempts := d.attempts + 1 })
                (get_otp_expiry_minutes s.conf * 60))) ∧
        (d.attempts ≥ 3 →
          verify_signup_otp s data =
            ({ status := "error", message := "Too many attempts. Request a new OTP" },
              s.cache))) ∧
      (s.cache.get_value ("otp_login_" ++ data.phone) = some (.otp d) →
        (d.attempts < 3 → hash_otp data.otp ≠ d.otp_hash →
          verify_login_otp s data =
            (.error (.validationError "Invalid OTP"),
              s.cache.set_value ("otp_login_" ++ data.phone)
                (.otp { d with attempts := d.attempts + 1 })
                (get_otp_expiry_minutes s.conf * 60))) ∧
        (d.attempts ≥ 3 →
          verify_login_otp s data =
            (.error (.validationError "Too many attempts. Request a new OTP"),
              s.cache))) := by
  intro s data d
  constructor
  · intro hc
    constructor
    · intro hlt hwrong
      have h3 : ¬ d.attempts ≥ 3 := by omega
      simp [verify_signup_otp, hc, h3, hwrong]
    · intro hge
      simp [verify_signup_otp, hc, hge]
  · intro hc
    constructor
    · intro hlt hwrong
      have h3 : ¬ d.attempts ≥ 3 := by omega
      simp [verify_login_otp, hc, h3, hwrong]
    · intro hge
      simp [verify_login_otp, hc, hge]

def c5_entry : OtpData := { otp_hash := hash_otp "123456", attempts := 3 }

def c5_state : St :=
  { cache := Cache.empty.set_value "otp_signup_7777777777" (.otp c5_entry) 600 }

/-- Closed witness for C5: an entry whose counter has reached 3 rejects even
the correct OTP and leaves the cache unchanged. -/
theorem C5_otp_attempt_counter_witness :
    verify_signup_otp c5_state { phone := "7777777777", otp := "123456" } =
      ({ status := "error", message := "Too many attempts. Request a new OTP" },
        c5_state.cache) :=
  ((C5_otp_attempt_counter c5_state { phone := "7777777777", otp := "123456" }
      c5_entry).1 (by rfl)).2 (by decide)

/-- C6: a refresh token's signed payload carries `email`, `iat`, `exp` and
`type: "refresh"`; `refresh_token` answers an error (with no access token in
the response) whenever the verified payload's `type` is not `"refresh"`;
and on success the response carries a fresh access token whose payload has
`email`, `iat` and `exp` (and no `type` key). -/
theorem C6_refresh_token_contract :
    (∀ (conf : Conf) (now : Int) (email : String),
        (generate_refresh_token conf now email).payload =
          { email := email, iat := now
            exp := now + 86400 * (get_jwt_refresh_expiry_days conf : Int)
            type := some "refresh" }) ∧
    (∀ (s : St) (tok : Jwt) (p : JwtPayload),
        verify_jwt_token s.conf s.now tok = some p →
        p.type ≠ some "refresh" →
        refresh_token s tok =
          { status := "error", message := some "Invalid refresh token" }) ∧
    (∀ (s : St) (tok : Jwt),
        (refresh_token s tok).status = "success" →
        ∃ p, verify_jwt_token s.conf s.now tok = some p ∧
          p.type = some "refresh" ∧
          refresh_token s tok =
            { status := "success"
              access_token := some (generate_jwt_token s.conf s.now p.email)
              token_type := some "Bearer" } ∧
          (generate_jwt_token s.conf s.now p.email).payload =
            { email := p.email, iat := s.now
              exp := s.now + 60 * (get_jwt_expiry_minutes s.conf : Int)
              type := none }) := by
  refine ⟨?_, ?_, ?_⟩
  · intro conf now email; rfl
  · intro s tok p hv ht
    simp [refresh_token, refresh_token_inner, hv, ht]
  · intro s tok h
    cases hv : verify_jwt_token s.conf s.now tok with
    | none => simp [refresh_token, refresh_token_inner, hv] at h
    | some p =>
      by_cases ht : p.type = some "refresh"
      · by_cases hu : user_exists s.users p.email
        · cases hg : get_user_doc s.users p.email with
          | none => simp [refresh_token, refresh_token_inner, hv, ht, hu, hg] at h
          | some user =>
            by_cases hd : user.disabled
            · simp [refresh_token, refresh_token_inner, hv, ht, hu, hg, hd] at h
            · exact ⟨p, rfl, ht,
                by simp [refresh_token, refresh_token_inner, hv, ht, hu, hg, hd], rfl⟩
        · simp [refresh_token, refresh_token_inner, hv, ht, hu] at h
      · simp [refresh_token, refresh_token_inner, hv, ht] at h

def c6_state : St := {}

def c6_access_tok : Jwt := generate_jwt_token {} 0 "x@y.com"

/-- Closed witness for C6: an access token (payload without
`type: "refresh"`) is rejected by `refresh_token`. -/
theorem C6_refresh_token_contract_witness :
    refresh_token c6_state c6_access_tok =
      { status := "error", message := some "Invalid refresh token" } :=
  C6_refresh_token_contract.2.1 c6_state c6_access_tok c6_access_tok.payload
    (by rfl) (by decide)

/-- C10: for a (non-empty) customer name absent from the Customer table,
`get_cart` answers success with an empty item list and total 0, while
`update_cart`, `clear_cart` and `submit_cart` all throw the
"Customer not found" validation error (leaving the database untouched). -/
theorem C10_nonexistent_customer :
    ∀ (db : CartDb) (customer : String),
      customer ≠ "" → customer_exists db customer = false →
      get_cart db customer =
        .ok { success := true, data := { items := [], total := 0 } } ∧
      (∀ (items : List ItemUpdate) (sp sa ba : Option String),
        update_cart db customer items sp sa ba =
          (.error (.validationError "Customer not found"), db)) ∧
      clear_cart db customer =
        (.error (.validationError "Customer not found"), db) ∧
      (∀ cart_id : Option String,
        submit_cart db customer cart_id =
          (.error (.validationError "Customer not found"), db)) := by
  intro db customer hne hex
  refine ⟨?_, ?_, ?_, ?_⟩
  · simp [get_cart, hne, hex]
  · intro items sp sa ba
    simp [update_cart, hne, hex]
  · simp [clear_cart, hne, hex]
  · intro cart_id
    simp [submit_cart, hne, hex]

def c10_db : CartDb := { customers := ["Known Customer"] }

/-- Closed witness for C10 at a concrete database without the customer. -/
theorem C10_nonexistent_customer_witness :
    get_cart c10_db "Ghost Customer" =
      .ok { success := true, data := { items := [], total := 0 } } ∧
    clear_cart c10_db "Ghost Customer" =
      (.error (.validationError "Customer not found"), c10_db) :=
  ⟨(C10_nonexistent_customer c10_db "Ghost Customer" (by decide) (by rfl)).1,
   (C10_nonexistent_customer c10_db "Ghost Customer" (by decide) (by rfl)).2.2.1⟩

/-- C7: `submit_cart` submits only a draft cart of the calling customer
with at least one child item row and a shipping process: every call either
succeeds — and then the submitted cart came from the Quick Order table,
belongs to `customer`, had `docstatus = 0`, a non-empty `table_effn` and a
truthy `shipping_process`, and the only change is that cart's `docstatus`
becoming 1 — or it throws some exception (already submitted or cancelled,
empty item table, missing shipping process, foreign or missing cart,
unknown customer) and leaves the database, hence every cart's `docstatus`,
unchanged. -/
theorem C7_submit_cart_guarded :
    ∀ (db : CartDb) (customer : String) (cart_id : Option String),
      (∃ cart, cart ∈ db.quick_orders ∧
        cart.customer = customer ∧ cart.docstatus = 0 ∧
        cart.table_effn ≠ [] ∧ pyTruthyStr cart.shipping_process = true ∧
        submit_cart db customer cart_id =
          (.ok { success := true, message := some "Cart submitted successfully"
                 cart_id := some cart.name },
            qo_save db { cart with docstatus := 1 })) ∨
      (∃ e, submit_cart db customer cart_id = (.error e, db)) := by
  intro db customer cart_id
  by_cases h1 : customer = ""
  · exact Or.inr ⟨.validationError "customer is required", by simp [submit_cart, h1]⟩
  by_cases h2 : customer_exists db customer
  case neg =>
    exact Or.inr ⟨.validationError "Customer not found", by simp [submit_cart, h1, h2]⟩
  by_cases h3 : pyTruthyStr cart_id
  · cases h4 : db.quick_orders.find? (fun o => o.name = cart_id.getD "") with
    | none =>
      exact Or.inr ⟨.validationError "Cart not found",
        by simp [submit_cart, h1, h2, h3, h4]⟩
    | some c =>
      by_cases h5 : c.customer = customer
      case neg =>
        exact Or.inr ⟨.permissionError "Unauthorized access to cart",
          by simp [submit_cart, h1, h2, h3, h4, h5]⟩
      by_cases h6 : c.docstatus = 0
      case neg =>
        exact Or.inr ⟨.validationError "Cart is already submitted or cancelled",
          by simp [submit_cart, h1, h2, h3, h4, h5, h6]⟩
      by_cases h7 : c.table_effn.isEmpty
      · exact Or.inr ⟨.validationError "Cannot submit an empty cart",
          by simp [submit_cart, h1, h2, h3, h4, h5, h6, h7]⟩
      by_cases h8 : pyTruthyStr c.shipping_process
      case neg =>
        exact Or.inr ⟨.validationError "Shipping Process is required to submit cart",
          by simp [submit_cart, h1, h2, h3, h4, h5, h6, h7, h8]⟩
      refine Or.inl ⟨c, List.mem_of_find?_eq_some h4, h5, h6, ?_, h8, ?_⟩
      · intro hnil; exact h7 (by simp [hnil])
      · simp [submit_cart, h1, h2, h3, h4, h5, h6, h7, h8]
  · cases h4 : get_existing_cart db customer with
    | none =>
      exact Or.inr ⟨.validationError "Cart not found for this customer",
        by simp [submit_cart, h1, h2, h3, h4]⟩
    | some c =>
      have hp := List.find?_some h4
      simp only [decide_eq_true_eq] at hp
      obtain ⟨hc5, hc6⟩ := hp
      by_cases h7 : c.table_effn.isEmpty
      · exact Or.inr ⟨.validationError "Cannot submit an empty cart",
          by simp [submit_cart, h1, h2, h3, h4, hc6, h7]⟩
      by_cases h8 : pyTruthyStr c.shipping_process
      case neg =>
        exact Or.inr ⟨.validationError "Shipping Process is required to submit cart",
          by simp [submit_cart, h1, h2, h3, h4, hc6, h7, h8]⟩
      refine Or.inl ⟨c, List.mem_of_find?_eq_some h4, hc5, hc6, ?_, h8, ?_⟩
      · intro hnil; exact h7 (by simp [hnil])
      · simp [submit_cart, h1, h2, h3, h4, hc6, h7, h8]

def c8_cart : QuickOrder :=
  { name := "QO-1", customer := "CUST", docstatus := 0
    table_effn := [{ item_code := "A", qty := 2 }]
    shipping_process := some "SP" }

def c8_db : CartDb := { customers := ["CUST"], quick_orders := [c8_cart] }

/-- C8 counterexample: an entry with an unknown item (`"GHOST"` has no
Website Item row) but `qty = 0` does NOT make the call throw — the
pre-validation pass looks the item up only when `qty > 0`, so the call
succeeds and the removal is a no-op. -/
theorem C8_unknown_item_qty_zero_no_throw :
    website_item_of c8_db "GHOST" = none ∧
    update_cart c8_db "CUST" [{ item_code := some "GHOST", qty := some 0 }] =
      (.ok { success := true, message := some "Cart updated successfully"
             cart_id := some "QO-1" }, c8_db) := by
  exact ⟨rfl, rfl⟩

/-- Normalisation of one `items` entry
(`{"item_code": ..., "qty": float(...)}`). -/
def normEntryOf (iu : ItemUpdate) : NormEntry :=
  ⟨iu.item_code.getD "", iu.qty.getD 0⟩

/-- The conditions under which an `items` entry passes `update_cart`'s
pre-validation: a truthy `item_code`, a non-negative qty, and — only when
`qty > 0` — a published Website Item for the code. -/
def entry_valid (db : CartDb) (iu : ItemUpdate) : Prop :=
  pyTruthyStr iu.item_code = true ∧ 0 ≤ iu.qty.getD 0 ∧
  (0 < iu.qty.getD 0 →
    ∃ w, website_item_of db (iu.item_code.getD "") = some w ∧ w.published = true)

/-- Spec-side restatement of the claim's per-entry merge step: `qty == 0`
removes the row with that code if present (no-op otherwise); `qty > 0`
updates the qty of an existing row or appends a new row populated from the
Website Item. -/
def claimed_merge_entry (db : CartDb) (rows : List CartItemRow) (e : NormEntry) :
    List CartItemRow :=
  if e.qty = 0 then
    erase_first_by_code rows e.code
  else if (rows.find? (fun r => r.item_code = e.code)).isSome then
    update_first_qty rows e.code e.qty
  else
    match website_item_of db e.code with
    | some d =>
      rows ++ [{ item_code := d.item_code, item_name := d.web_item_name
                 qty := e.qty, uom := d.stock_uom }]
    | none => rows

/-- Soundness of `item_details_cache`: every cached binding is the
published Website Item of its code. -/
def cache_ok (db : CartDb) (cache : List (String × WebsiteItem)) : Prop :=
  ∀ code w, List.lookup code cache = some w →
    website_item_of db code = some w ∧ w.published = true

theorem lookup_append_some {α : Type} [BEq α] {β : Type} {a : α} {w : β}
    {l₁ l₂ : List (α × β)} (h : List.lookup a l₁ = some w) :
    List.lookup a (l₁ ++ l₂) = some w := by
  induction l₁ with
  | nil => simp [List.lookup] at h
  | cons p rest ih =>
    rw [List.cons_append]
    rw [List.lookup] at h ⊢
    cases hb : (a == p.1) with
    | true => rw [hb] at h; exact h
    | false => rw [hb] at h; exact ih h

theorem lookup_append_none {α : Type} [BEq α] {β : Type} {a : α}
    {l₁ l₂ : List (α × β)} (h : List.lookup a l₁ = none) :
    List.lookup a (l₁ ++ l₂) = List.lookup a l₂ := by
  induction l₁ with
  | nil => simp
  | cons p rest ih =>
    rw [List.cons_append]
    rw [List.lookup] at h ⊢
    cases hb : (a == p.1) with
    | true => rw [hb] at h; exact Option.noConfusion h
    | false => rw [hb] at h; exact ih h

theorem erase_first_by_code_of_find?_none {rows : List CartItemRow}
    {code : String}
    (h : rows.find? (fun r => r.item_code = code) = none) :
    erase_first_by_code rows code = rows := by
  induction rows with
  | nil => rfl
  | cons r rest ih =>
    by_cases hr : r.item_code = code
    · rw [List.find?_cons_of_pos _ (by simpa using hr)] at h
      exact Option.noConfusion h
    · rw [List.find?_cons_of_neg _ (by simpa using hr)] at h
      simp [erase_first_by_code, hr, ih h]

theorem cache_ok_nil (db : CartDb) : cache_ok db [] := by
  intro code w h
  simp [List.lookup] at h

theorem cache_ok_extend {db : CartDb} {cache : List (String × WebsiteItem)}
    (hca : cache_ok db cache) {code : String} {w : WebsiteItem}
    (hw : website_item_of db code = some w) (hp : w.published = true) :
    cache_ok db (cache ++ [(code, w)]) := by
  intro a v h
  cases hl : List.lookup a cache with
  | some v2 =>
    rw [lookup_append_some hl] at h
    injection h with h
    rw [← h]
    exact hca a v2 hl
  | none =>
    rw [lookup_append_none hl] at h
    rw [List.lookup] at h
    cases hb : (a == code) with
    | true =>
      rw [hb] at h
      injection h with h
      have ha : a = code := by simpa using hb
      rw [ha, ← h]
      exact ⟨hw, hp⟩
    | false =>
      rw [hb] at h
      simp [List.lookup] at h

theorem prevalidate_items_ok_spec (db : CartDb) :
    ∀ (items : List ItemUpdate) (acc : List NormEntry)
      (cache : List (String × WebsiteItem)),
      cache_ok db cache →
      (∀ iu ∈ items, entry_valid db iu) →
      ∃ cache2,
        prevalidate_items db items acc cache =
          .ok (acc ++ items.map normEntryOf, cache2) ∧
        cache_ok db cache2 ∧
        (∀ a, (List.lookup a cache).isSome →
          List.lookup a cache2 = List.lookup a cache) ∧
        (∀ iu ∈ items, 0 < iu.qty.getD 0 →
          (List.lookup (iu.item_code.getD "") cache2).isSome) := by
  intro items
  induction items with
  | nil =>
    intro acc cache hca _
    exact ⟨cache, by simp [prevalidate_items], hca, fun a _ => rfl, by simp⟩
  | cons iu rest ih =>
    intro acc cache hca hv
    obtain ⟨ht, hq0, hpub⟩ := hv iu (List.mem_cons_self iu rest)
    have hvrest : ∀ x ∈ rest, entry_valid db x :=
      fun x hx => hv x (List.mem_cons_of_mem _ hx)
    have hnneg : ¬ (iu.qty.getD 0 < 0) := not_lt.mpr hq0
    by_cases hq : 0 < iu.qty.getD 0
    · cases hl : List.lookup (iu.item_code.getD "") cache with
      | none =>
        obtain ⟨w, hw, hp⟩ := hpub hq
        have hstep : prevalidate_items db (iu :: rest) acc cache =
            prevalidate_items db rest (acc ++ [normEntryOf iu])
              (cache ++ [(iu.item_code.getD "", w)]) := by
          simp [prevalidate_items, ht, hnneg, hq, hl, hw, hp, normEntryOf]
        obtain ⟨cache2, hrec, hca2, hmono, hcomp⟩ :=
          ih (acc ++ [normEntryOf iu]) (cache ++ [(iu.item_code.getD "", w)])
            (cache_ok_extend hca hw hp) hvrest
        have hself : List.lookup (iu.item_code.getD "")
            (cache ++ [(iu.item_code.getD "", w)]) = some w := by
          rw [lookup_append_none hl, List.lookup]
          simp
        refine ⟨cache2, ?_, hca2, ?_, ?_⟩
        · rw [hstep, hrec]
          simp [normEntryOf]
        · intro a ha
          obtain ⟨v, hv'⟩ := Option.isSome_iff_exists.mp ha
          have hx : List.lookup a (cache ++ [(iu.item_code.getD "", w)]) = some v :=
            lookup_append_some hv'
          rw [hmono a (by simp [hx]), hx, hv']
        · intro x hx hxq
          rcases List.mem_cons.mp hx with rfl | hxr
          · rw [hmono _ (by simp [hself]), hself]
            rfl
          · exact hcomp x hxr hxq
      | some v =>
        have hstep : prevalidate_items db (iu :: rest) acc cache =
            prevalidate_items db rest (acc ++ [normEntryOf iu]) cache := by
          simp [prevalidate_items, ht, hnneg, hl, normEntryOf]
        obtain ⟨cache2, hrec, hca2, hmono, hcomp⟩ :=
          ih (acc ++ [normEntryOf iu]) cache hca hvrest
        refine ⟨cache2, ?_, hca2, hmono, ?_⟩
        · rw [hstep, hrec]
          simp [normEntryOf]
        · intro x hx hxq
          rcases List.mem_cons.mp hx with rfl | hxr
          · rw [hmono _ (by simp [hl]), hl]
            rfl
          · exact hcomp x hxr hxq
    · have hstep : prevalidate_items db (iu :: rest) acc cache =
          prevalidate_items db rest (acc ++ [normEntryOf iu]) cache := by
        simp [prevalidate_items, ht, hnneg, hq, normEntryOf]
      obtain ⟨cache2, hrec, hca2, hmono, hcomp⟩ :=
        ih (acc ++ [normEntryOf iu]) cache hca hvrest
      refine ⟨cache2, ?_, hca2, hmono, ?_⟩
      · rw [hstep, hrec]
        simp [normEntryOf]
      · intro x hx hxq
        rcases List.mem_cons.mp hx with rfl | hxr
        · exact absurd hxq hq
        · exact hcomp x hxr hxq

theorem prevalidate_items_ok_all_valid (db : CartDb) :
    ∀ (items : List ItemUpdate) (acc : List NormEntry)
      (cache : List (String × WebsiteItem))
      (out : List NormEntry × List (String × WebsiteItem)),
      cache_ok db cache →
      prevalidate_items db items acc cache = .ok out →
      ∀ iu ∈ items, entry_valid db iu := by
  intro items
  induction items with
  | nil => intro acc cache out _ _ iu h; simp at h
  | cons iu0 rest ih =>
    intro acc cache out hca h x hx
    by_cases ht : pyTruthyStr iu0.item_code
    case neg => simp [prevalidate_items, ht] at h
    by_cases hneg : iu0.qty.getD 0 < 0
    · simp [prevalidate_items, ht, hneg] at h
    by_cases hq : 0 < iu0.qty.getD 0
    · cases hl : List.lookup (iu0.item_code.getD "") cache with
      | none =>
        cases hw : website_item_of db (iu0.item_code.getD "") with
        | none => simp [prevalidate_items, ht, hneg, hq, hl, hw] at h
        | some w =>
          by_cases hp : w.published
          case neg => simp [prevalidate_items, ht, hneg, hq, hl, hw, hp] at h
          have hstep : prevalidate_items db (iu0 :: rest) acc cache =
              prevalidate_items db rest (acc ++ [normEntryOf iu0])
                (cache ++ [(iu0.item_code.getD "", w)]) := by
            simp [prevalidate_items, ht, hneg, hq, hl, hw, hp, normEntryOf]
          rw [hstep] at h
          rcases List.mem_cons.mp hx with rfl | hxr
          · exact ⟨ht, not_lt.mp hneg, fun _ => ⟨w, hw, hp⟩⟩
          · exact ih _ _ _ (cache_ok_extend hca hw hp) h x hxr
      | some v =>
        have hstep : prevalidate_items db (iu0 :: rest) acc cache =
            prevalidate_items db rest (acc ++ [normEntryOf iu0]) cache := by
          simp [prevalidate_items, ht, hneg, hl, normEntryOf]
        rw [hstep] at h
        rcases List.mem_cons.mp hx with rfl | hxr
        · obtain ⟨hwv, hpv⟩ := hca _ v hl
          exact ⟨ht, not_lt.mp hneg, fun _ => ⟨v, hwv, hpv⟩⟩
        · exact ih _ _ _ hca h x hxr
    · have hstep : prevalidate_items db (iu0 :: rest) acc cache =
          prevalidate_items db rest (acc ++ [normEntryOf iu0]) cache := by
        simp [prevalidate_items, ht, hneg, hq, normEntryOf]
      rw [hstep] at h
      rcases List.mem_cons.mp hx with rfl | hxr
      · exact ⟨ht, not_lt.mp hneg, fun hq' => absurd hq' hq⟩
      · exact ih _ _ _ hca h x hxr

theorem merge_items_eq_fold (db : CartDb) :
    ∀ (entries : List NormEntry) (rows : List CartItemRow)
      (cache : List (String × WebsiteItem)),
      (∀ e ∈ entries, 0 ≤ e.qty) →
      (∀ e ∈ entries, 0 < e.qty →
        ∃ w, List.lookup e.code cache = some w ∧
          website_item_of db e.code = some w) →
      merge_items cache entries rows =
        .ok (entries.foldl (claimed_merge_entry db) rows) := by
  intro entries
  induction entries with
  | nil => intro rows cache _ _; rfl
  | cons e rest ih =>
    intro rows cache hge hlk
    have hge' : ∀ x ∈ rest, 0 ≤ x.qty :=
      fun x hx => hge x (List.mem_cons_of_mem _ hx)
    have hlk' : ∀ x ∈ rest, 0 < x.qty →
        ∃ w, List.lookup x.code cache = some w ∧
          website_item_of db x.code = some w :=
      fun x hx => hlk x (List.mem_cons_of_mem _ hx)
    by_cases hq : e.qty = 0
    · cases hfind : rows.find? (fun r => r.item_code = e.code) with
      | some r0 =>
        have hstep : merge_items cache (e :: rest) rows =
            merge_items cache rest (erase_first_by_code rows e.code) := by
          simp [merge_items, hq, hfind]
        rw [hstep, ih _ _ hge' hlk']
        simp [claimed_merge_entry, hq]
      | none =>
        have hstep : merge_items cache (e :: rest) rows =
            merge_items cache rest rows := by
          simp [merge_items, hq, hfind]
        rw [hstep, ih _ _ hge' hlk']
        simp [claimed_merge_entry, hq, erase_first_by_code_of_find?_none hfind]
    · cases hfind : rows.find? (fun r => r.item_code = e.code) with
      | some r0 =>
        have hstep : merge_items cache (e :: rest) rows =
            merge_items cache rest (update_first_qty rows e.code e.qty) := by
          simp [merge_items, hq, hfind]
        rw [hstep, ih _ _ hge' hlk']
        simp [claimed_merge_entry, hq, hfind]
      | none =>
        have hq' : 0 < e.qty :=
          lt_of_le_of_ne (hge e (List.mem_cons_self e rest)) (Ne.symm hq)
        obtain ⟨w, hlw, hww⟩ := hlk e (List.mem_cons_self e rest) hq'
        have hstep : merge_items cache (e :: rest) rows =
            merge_items cache rest (rows ++
              [{ item_code := w.item_code, item_name := w.web_item_name
                 qty := e.qty, uom := w.stock_uom }]) := by
          simp [merge_items, hq, hfind, hlw]
        rw [hstep, ih _ _ hge' hlk']
        simp [claimed_merge_entry, hq, hfind, hww]

/-- The claimed merge of a whole `items` list over existing cart rows:
the left fold of the claimed per-entry merge step over the normalised
entries. -/
def merged_rows (db : CartDb) (items : List ItemUpdate)
    (rows : List CartItemRow) : List CartItemRow :=
  (items.map normEntryOf).foldl (claimed_merge_entry db) rows

/-- C8 (amended): on an existing draft cart, `update_cart` merges the
entries exactly as claimed — `qty == 0` removes the first row with that
`item_code` when present and is a no-op otherwise, `qty > 0` updates the
qty of the first matching row or appends a new row populated from the
published Website Item — and the whole call throws for any entry with a
missing `item_code` or a negative qty, and for any `qty > 0` entry whose
item is unknown or unpublished (a `qty == 0` entry is processed without any
Website Item lookup). -/
theorem C8_cart_merge_amended :
    ∀ (db : CartDb) (customer : String) (items : List ItemUpdate)
      (cart : QuickOrder),
      customer ≠ "" → customer_exists db customer = true →
      get_existing_cart db customer = some cart →
      items ≠ [] →
      ((∀ iu ∈ items, entry_valid db iu) →
        update_cart db customer items =
          (.ok { success := true, message := some "Cart updated successfully"
                 cart_id := some cart.name },
            qo_save db { cart with
              table_effn := merged_rows db items cart.table_effn })) ∧
      ((∃ iu ∈ items, ¬ entry_valid db iu) →
        ∃ e, update_cart db customer items = (.error e, db)) := by
  intro db customer items cart hne hex hc hitems
  obtain ⟨iu0, rest, rfl⟩ := List.exists_cons_of_ne_nil hitems
  constructor
  · intro hvalid
    obtain ⟨cache2, hprev, hca2, hmono, hcomp⟩ :=
      prevalidate_items_ok_spec db (iu0 :: rest) [] [] (cache_ok_nil db) hvalid
    have hprev' : prevalidate_items db (iu0 :: rest) [] [] =
        .ok ((iu0 :: rest).map normEntryOf, cache2) := by simpa using hprev
    have hge : ∀ e ∈ (iu0 :: rest).map normEntryOf, 0 ≤ e.qty := by
      intro e he
      obtain ⟨iu, hiu, rfl⟩ := List.mem_map.mp he
      exact (hvalid iu hiu).2.1
    have hlk : ∀ e ∈ (iu0 :: rest).map normEntryOf, 0 < e.qty →
        ∃ w, List.lookup e.code cache2 = some w ∧
          website_item_of db e.code = some w := by
      intro e he hq
      obtain ⟨iu, hiu, rfl⟩ := List.mem_map.mp he
      obtain ⟨w, hw⟩ := Option.isSome_iff_exists.mp (hcomp iu hiu hq)
      exact ⟨w, hw, (hca2 _ _ hw).1⟩
    have hmerge := merge_items_eq_fold db ((iu0 :: rest).map normEntryOf)
      cart.table_effn cache2 hge hlk
    have hmerge' : merge_items cache2
        (normEntryOf iu0 :: List.map normEntryOf rest) cart.table_effn =
        Except.ok (List.foldl (claimed_merge_entry db)
          (claimed_merge_entry db cart.table_effn (normEntryOf iu0))
          (List.map normEntryOf rest)) := by
      simpa using hmerge
    simp [update_cart, merged_rows, hne, hex, hc, hprev', hmerge', pyTruthyStr]
  · intro hbadex
    obtain ⟨iu, hiu, hbad⟩ := hbadex
    cases hpre : prevalidate_items db (iu0 :: rest) [] [] with
    | ok out =>
      exact absurd
        (prevalidate_items_ok_all_valid db _ _ _ _ (cache_ok_nil db) hpre iu hiu)
        hbad
    | error e =>
      exact ⟨e, by simp [update_cart, hne, hex, hpre]⟩

def c8w_item : WebsiteItem :=
  { item_code := "B", web_item_name := "Item B", stock_uom := "Nos"
    published := true }

def c8w_cart : QuickOrder :=
  { name := "QO-9", customer := "CUST", docstatus := 0
    table_effn := [{ item_code := "A", qty := 2 }]
    shipping_process := some "SP" }

def c8w_db : CartDb :=
  { customers := ["CUST"], quick_orders := [c8w_cart]
    website_items := [c8w_item] }

/-- Closed witness for the amended C8 statement: a `qty > 0` entry for a
published item absent from the cart appends a new row via the claimed
merge step. -/
theorem C8_cart_merge_amended_witness :
    update_cart c8w_db "CUST" [{ item_code := some "B", qty := some 3 }] =
      (.ok { success := true, message := some "Cart updated successfully"
             cart_id := some c8w_cart.name },
        qo_save c8w_db { c8w_cart with
          table_effn := merged_rows c8w_db
            [{ item_code := some "B", qty := some 3 }]
            c8w_cart.table_effn }) :=
  (C8_cart_merge_amended c8w_db "CUST"
      [{ item_code := some "B", qty := some 3 }] c8w_cart
      (by decide) (by rfl) (by rfl) (by decide)).1
    (by
      intro iu hiu
      simp at hiu
      subst hiu
      exact ⟨rfl, by norm_num [normEntryOf], fun _ => ⟨c8w_item, rfl, rfl⟩⟩)

end ARB
